import Mathlib

/-!
Verification development for the FASTSIGNSDESGIN repository.

The repository is a thin React client over a Supabase backend; its one
contract-bearing layer is the row-level-security (RLS) policy set declared in
the SQL migrations, together with the client-side request shapes that hit it.
This file shallowly embeds that layer:

- each SQL table becomes a Lean structure holding the columns the migration
  declares (UUID and TEXT columns as `String` / `Option String` according to
  nullability, BIGINT and INTEGER as `Int`, BOOLEAN as `Bool`, timestamps as
  `Nat` instants);
- the RLS policy set of each table becomes a boolean function of the operation,
  the auth context of the caller and the candidate row, translated clause by
  clause from the `CREATE POLICY` statements; a table with RLS enabled and no
  policy for an operation denies it, which the functions render as `false`;
- storage object names are represented as their slash-separated segment
  lists (`List String`), so that `storage.foldername` is `List.dropLast` and
  the `[1]` subscript is `List.head?`; client path construction
  (`jobId/fileName`, `fileId/versions/...`) builds such lists directly, the
  file-name components being single segments because browser file names and
  the generated names contain no slash;
- the `handle_new_user` trigger function and the client mutation helpers
  (`createJob`, `handleFileUpload`, `deleteJob`, `createNewVersion`) become
  Lean functions over explicit database states.

SQL three-valued equality against a nullable column is modelled by `sqlEq`:
a comparison involving NULL is not TRUE, hence denies.
-/

/-- Authentication context of the caller: `uid` is `auth.uid()`, which is
NULL (`none`) for an unauthenticated caller. -/
structure AuthContext where
  uid : Option String
deriving Repr, DecidableEq

/-- Supabase `auth.role()`: the `authenticated` role when a user is signed
in, `anon` otherwise. -/
def authRole (c : AuthContext) : String :=
  match c.uid with
  | some _ => "authenticated"
  | none => "anon"

/-- SQL equality under three-valued logic, restricted to the boolean outcome
an RLS USING/WITH CHECK clause needs: a comparison with NULL is not TRUE. -/
def sqlEq : Option String → Option String → Bool
  | some a, some b => a == b
  | _, _ => false

/-- The four row-level operations an RLS policy can gate. -/
inductive Op
  | select
  | insert
  | update
  | delete
deriving Repr, DecidableEq

/-- A row of `public.profiles` (migration 20250905201003). -/
structure ProfileRow where
  id : String
  email : String
  full_name : String
  role : String
  created_at : Nat
  updated_at : Nat
deriving Repr, DecidableEq

/-- A row of `public.jobs`, including the columns added by the later
migration (thumbnail, priority, status, client_name). -/
structure JobRow where
  id : String
  name : String
  description : Option String
  created_by : Option String
  thumbnail : Option String
  priority : String
  status : String
  client_name : Option String
  created_at : Nat
  updated_at : Nat
deriving Repr, DecidableEq

/-- A row of `public.job_files`. `file_path` is the storage object name,
held as its slash-separated segments. -/
structure JobFileRow where
  id : String
  job_id : Option String
  file_name : String
  file_path : List String
  file_type : String
  file_size : Int
  is_presentation : Bool
  uploaded_by : Option String
  created_at : Nat
deriving Repr, DecidableEq

/-- A row of `public.file_comments`. -/
structure FileCommentRow where
  id : String
  file_id : String
  user_id : String
  comment : String
  parent_id : Option String
  created_at : Nat
  updated_at : Nat
deriving Repr, DecidableEq

/-- A row of `public.file_versions`. -/
structure FileVersionRow where
  id : String
  file_id : String
  version_number : Int
  file_path : List String
  file_size : Int
  changelog : Option String
  created_by : Option String
  created_at : Nat
deriving Repr, DecidableEq

/-- A row of `public.project_templates`; `template_data` is an opaque JSONB
payload. -/
structure ProjectTemplateRow where
  id : String
  name : String
  description : Option String
  thumbnail : Option String
  template_data : Option String
  category : String
  is_public : Bool
  created_by : Option String
  created_at : Nat
  updated_at : Nat
deriving Repr, DecidableEq

/-- A row of `storage.objects`: the bucket and the object name as its
slash-separated segments. -/
structure StorageObjectRow where
  bucket_id : String
  name : List String
deriving Repr, DecidableEq

/-- RLS policy set of `public.profiles`: SELECT for any authenticated
caller; UPDATE when `auth.uid() = id`; no INSERT or DELETE policy exists for
client callers (the bootstrap insert runs as SECURITY DEFINER), so those
operations are denied. -/
def profilesPolicy (op : Op) (c : AuthContext) (row : ProfileRow) : Bool :=
  match op with
  | Op.select => authRole c == "authenticated"
  | Op.update => sqlEq c.uid (some row.id)
  | _ => false

/-- RLS policy set of `public.jobs`: SELECT and INSERT for any authenticated
caller; UPDATE and DELETE when `auth.uid() = created_by`. -/
def jobsPolicy (op : Op) (c : AuthContext) (row : JobRow) : Bool :=
  match op with
  | Op.select => authRole c == "authenticated"
  | Op.insert => authRole c == "authenticated"
  | Op.update => sqlEq c.uid row.created_by
  | Op.delete => sqlEq c.uid row.created_by

/-- RLS policy set of `public.job_files`: SELECT and INSERT for any
authenticated caller; UPDATE and DELETE when `auth.uid() = uploaded_by`. -/
def jobFilesPolicy (op : Op) (c : AuthContext) (row : JobFileRow) : Bool :=
  match op with
  | Op.select => authRole c == "authenticated"
  | Op.insert => authRole c == "authenticated"
  | Op.update => sqlEq c.uid row.uploaded_by
  | Op.delete => sqlEq c.uid row.uploaded_by

/-- RLS policy set of `public.file_comments`: SELECT and INSERT for any
authenticated caller; UPDATE and DELETE when `auth.uid() = user_id`. -/
def fileCommentsPolicy (op : Op) (c : AuthContext) (row : FileCommentRow) : Bool :=
  match op with
  | Op.select => authRole c == "authenticated"
  | Op.insert => authRole c == "authenticated"
  | Op.update => sqlEq c.uid (some row.user_id)
  | Op.delete => sqlEq c.uid (some row.user_id)

/-- RLS policy set of `public.file_versions`: only SELECT and INSERT
policies exist (both for any authenticated caller); UPDATE and DELETE have
no policy and are denied. -/
def fileVersionsPolicy (op : Op) (c : AuthContext) (_row : FileVersionRow) : Bool :=
  match op with
  | Op.select => authRole c == "authenticated"
  | Op.insert => authRole c == "authenticated"
  | _ => false

/-- RLS policy set of `public.project_templates`: SELECT when
`is_public = true OR auth.uid() = created_by`; INSERT for any authenticated
caller; UPDATE when `auth.uid() = created_by`; no DELETE policy exists, so
DELETE is denied. -/
def projectTemplatesPolicy (op : Op) (c : AuthContext) (row : ProjectTemplateRow) : Bool :=
  match op with
  | Op.select => row.is_public || sqlEq c.uid row.created_by
  | Op.insert => authRole c == "authenticated"
  | Op.update => sqlEq c.uid row.created_by
  | Op.delete => false

/-- `storage.foldername(name)`: the directory segments of the object name,
i.e. everything but the final segment. -/
def foldername (name : List String) : List String :=
  name.dropLast

/-- RLS policy set of the `job-files` bucket rows in `storage.objects`:
SELECT and INSERT for any authenticated caller; UPDATE and DELETE when
`auth.uid()::text = (storage.foldername(name))[1]`, the leading path
segment. -/
def storageObjectsPolicy (op : Op) (c : AuthContext) (row : StorageObjectRow) : Bool :=
  match op with
  | Op.select => row.bucket_id == "job-files" && authRole c == "authenticated"
  | Op.insert => row.bucket_id == "job-files" && authRole c == "authenticated"
  | Op.update => row.bucket_id == "job-files" && sqlEq c.uid (foldername row.name).head?
  | Op.delete => row.bucket_id == "job-files" && sqlEq c.uid (foldername row.name).head?

/-- A row of `auth.users` as seen by the `handle_new_user` trigger: the new
id and email of the new identity, and the optional full_name entry of `raw_user_meta_data`. -/
structure AuthUser where
  id : String
  email : String
  raw_full_name : Option String
deriving Repr, DecidableEq

/-- The hard-coded admin email allowlist inside `handle_new_user`. -/
def adminEmails : List String :=
  ["eman.mukhtar@fastsigns.com", "chuck@curryhhi.com"]

/-- The `public.handle_new_user` trigger function: builds the profile row
inserted for a newly created `auth.users` row. `full_name` is
the COALESCE of the raw full_name metadata and the email; `role` is `admin` when
the email is in the hard-coded allowlist, else `user`. -/
def handle_new_user (u : AuthUser) (now : Nat) : ProfileRow :=
  { id := u.id
    email := u.email
    full_name := u.raw_full_name.getD u.email
    role := if u.email ∈ adminEmails then "admin" else "user"
    created_at := now
    updated_at := now }

/-- The `public.update_updated_at_column` trigger function, fired BEFORE
UPDATE on profiles, jobs, notifications, project_templates and
file_comments: it overwrites `updated_at` with NOW() and leaves every other
column of the row it receives unchanged. -/
def update_updated_at_column (p : ProfileRow) (now : Nat) : ProfileRow :=
  { p with updated_at := now }

/-- The persistent state the embedded operations act on: the auth store,
the public tables and the storage bucket contents. -/
structure DB where
  authUsers : List AuthUser
  profiles : List ProfileRow
  jobs : List JobRow
  job_files : List JobFileRow
  file_comments : List FileCommentRow
  file_versions : List FileVersionRow
  project_templates : List ProjectTemplateRow
  objects : List StorageObjectRow
deriving Repr, DecidableEq

/-- First authentication of an identity: inserting into `auth.users` fails
on the primary key when the id already exists; otherwise the row is stored
and the `on_auth_user_created` trigger fires `handle_new_user` once,
inserting exactly one profile row. -/
def signUp (db : DB) (u : AuthUser) (now : Nat) : Option DB :=
  if db.authUsers.any (fun v => v.id == u.id) then
    none
  else
    some { db with
      authUsers := db.authUsers ++ [u]
      profiles := db.profiles ++ [handle_new_user u now] }

/-- The job row built by `Dashboard.createJob`: the form fields plus
the JS default `priority` (falling back to medium when absent or empty),
status pending and `created_by` set to the session uid. `rowId` and `now` stand for the server-side
`gen_random_uuid()` and `NOW()` defaults. -/
def createJob (rowId : String) (uid : Option String) (name : String)
    (description client_name : Option String) (priority : Option String)
    (now : Nat) : JobRow :=
  { id := rowId
    name := name
    description := description
    client_name := client_name
    priority :=
      match priority with
      | none => "medium"
      | some p => if p == "" then "medium" else p
    status := "pending"
    thumbnail := none
    created_by := uid
    created_at := now
    updated_at := now }

/-- The storage path built by `JobFiles.handleFileUpload` for an original
upload: `jobId/fileName` where `fileName` is the generated
`timestamp-random.ext` single segment. -/
def uploadFilePath (jobId fileName : String) : List String :=
  [jobId, fileName]

/-- The metadata row `JobFiles.handleFileUpload` inserts after a successful
storage upload of the file at `uploadFilePath jobId fileName`. -/
def uploadedJobFileRow (rowId : String) (jobId : String) (origName fileType : String)
    (size : Int) (isPresentation : Bool) (uid : Option String)
    (fileName : String) (now : Nat) : JobFileRow :=
  { id := rowId
    job_id := some jobId
    file_name := origName
    file_path := uploadFilePath jobId fileName
    file_type := fileType
    file_size := size
    is_presentation := isPresentation
    uploaded_by := uid
    created_at := now }

/-- `Dashboard.deleteJob`: a single relational DELETE on `public.jobs`
filtered by `id = jobId`. The RLS delete policy decides which matching rows
are removed; `job_files` rows referencing a removed job are removed by the
`ON DELETE CASCADE` foreign key. No storage call is issued, so
`db.objects` is untouched. -/
def deleteJob (c : AuthContext) (db : DB) (jobId : String) : DB :=
  let removed := fun j : JobRow => j.id == jobId && jobsPolicy Op.delete c j
  { db with
    jobs := db.jobs.filter (fun j => !(removed j))
    job_files := db.job_files.filter (fun f =>
      !(db.jobs.any (fun j => removed j && f.job_id == some j.id))) }

/-- Object-store `get`/`download` as seen through the SELECT policy: the
blob at `name` is reachable for caller `c` exactly when a matching object
row exists and the storage SELECT policy admits it. -/
def storageGet (c : AuthContext) (db : DB) (name : List String) : Bool :=
  db.objects.any (fun o => o.name == name && storageObjectsPolicy Op.select c o)

/-- The version row built by `FileCollaboration.createNewVersion` from the
currently fetched client `versions` list: `version_number` is
`versions.length + 1` and the storage path is
`fileId/versions/fileId_vN.ext`. -/
def createNewVersion (rowId : String) (fileId : String)
    (versions : List FileVersionRow) (uid : Option String) (size : Int)
    (changelog : Option String) (ext : String) (now : Nat) : FileVersionRow :=
  let n : Nat := versions.length + 1
  { id := rowId
    file_id := fileId
    version_number := (n : Int)
    file_path := [fileId, "versions", fileId ++ "_v" ++ toString n ++ "." ++ ext]
    file_size := size
    changelog := changelog
    created_by := uid
    created_at := now }

/-- State of two `FileCollaboration` clients racing on the same file:
the `file_versions` rows for the file, and the `versions` snapshot each
client last fetched via `fetchVersions` (none before its first fetch). -/
structure CollabState where
  table : List FileVersionRow
  fetchedA : Option (List FileVersionRow)
  fetchedB : Option (List FileVersionRow)
deriving Repr, DecidableEq

/-- One atomic step of the two-client race: a client either runs
`fetchVersions` (reading the current rows) or runs the insert of
`createNewVersion`, computing the version number from its own previously
fetched snapshot. -/
inductive CollabStep
  | fetchA
  | fetchB
  | insertA
  | insertB
deriving Repr, DecidableEq

/-- Step semantics for the two-client race on file `fileId`. An insert
before any fetch is a no-op (the component fetches on mount before a
version can be created). -/
def collabStep (fileId : String) (s : CollabState) (step : CollabStep) : CollabState :=
  match step with
  | CollabStep.fetchA => { s with fetchedA := some s.table }
  | CollabStep.fetchB => { s with fetchedB := some s.table }
  | CollabStep.insertA =>
    match s.fetchedA with
    | some vs =>
      { s with table := s.table ++ [createNewVersion "ra" fileId vs (some "ua") 0 none "png" 0] }
    | none => s
  | CollabStep.insertB =>
    match s.fetchedB with
    | some vs =>
      { s with table := s.table ++ [createNewVersion "rb" fileId vs (some "ub") 0 none "png" 0] }
    | none => s

/-- Run an interleaving of the two-client race from a starting state. -/
def runCollab (fileId : String) (steps : List CollabStep) (s : CollabState) : CollabState :=
  steps.foldl (collabStep fileId) s

/-- Sequential version creation: starting from no versions, each creation
passes the full current row list (what a lone client fetches between
creations) to `createNewVersion` and appends the resulting row. -/
def seqVersions (fileId : String) (uid : Option String) : Nat → List FileVersionRow
  | 0 => []
  | n + 1 =>
    let prev := seqVersions fileId uid n
    prev ++ [createNewVersion (Nat.repr n) fileId prev uid 0 none "png" n]

/-- The storage-removal step of `JobFiles.deleteFile`: it calls
`storage.remove` on the single path `file.file_path`, which the storage
DELETE policy gates. -/
def deleteFileStorageRemove (c : AuthContext) (f : JobFileRow) : Bool :=
  storageObjectsPolicy Op.delete c ⟨"job-files", f.file_path⟩

/-- Sample job owned by user u1, for concrete evaluations. -/
def sampleJob : JobRow :=
  { id := "j1", name := "Banner run", description := none,
    created_by := some "u1", thumbnail := none, priority := "medium",
    status := "pending", client_name := none, created_at := 0, updated_at := 0 }

/-- Sample job file uploaded by user u1 into job j1. -/
def sampleJobFile : JobFileRow :=
  { id := "f1", job_id := some "j1", file_name := "logo.png",
    file_path := ["j1", "100-abc.png"], file_type := "image/png",
    file_size := 64, is_presentation := false, uploaded_by := some "u1",
    created_at := 0 }

/-- Sample comment authored by user u1. -/
def sampleComment : FileCommentRow :=
  { id := "c1", file_id := "f1", user_id := "u1", comment := "looks good",
    parent_id := none, created_at := 0, updated_at := 0 }

/-- Sample private template created by user carol. -/
def carolTemplate : ProjectTemplateRow :=
  { id := "t1", name := "Vehicle Wrap", description := none, thumbnail := none,
    template_data := none, category := "vehicle", is_public := false,
    created_by := some "carol", created_at := 0, updated_at := 0 }

/-- C1: for Job, JobFile and Comment rows the storage layer permits DELETE
exactly when the authenticated caller is the recorded owner
(created_by / uploaded_by / user_id); for Template rows no DELETE policy
exists, so DELETE is denied for every caller, the creator included. -/
theorem delete_requires_ownership_except_templates
    (u : String) (j : JobRow) (f : JobFileRow) (cm : FileCommentRow)
    (t : ProjectTemplateRow) (c : AuthContext) :
    (jobsPolicy Op.delete ⟨some u⟩ j = true ↔ j.created_by = some u) ∧
    (jobFilesPolicy Op.delete ⟨some u⟩ f = true ↔ f.uploaded_by = some u) ∧
    (fileCommentsPolicy Op.delete ⟨some u⟩ cm = true ↔ cm.user_id = u) ∧
    projectTemplatesPolicy Op.delete c t = false := by
  refine ⟨?_, ?_, ?_, rfl⟩
  · cases h : j.created_by with
    | none => simp [jobsPolicy, sqlEq, h]
    | some v =>
      simp only [jobsPolicy, sqlEq, h, beq_iff_eq, Option.some.injEq]
      exact eq_comm
  · cases h : f.uploaded_by with
    | none => simp [jobFilesPolicy, sqlEq, h]
    | some v =>
      simp only [jobFilesPolicy, sqlEq, h, beq_iff_eq, Option.some.injEq]
      exact eq_comm
  · simp only [fileCommentsPolicy, sqlEq, beq_iff_eq]
    exact eq_comm

/-- C1 witness: the ownership characterisation evaluated on the concrete
sample rows, with the template denial evaluated for its own creator. -/
theorem delete_requires_ownership_except_templates_witness :
    jobsPolicy Op.delete ⟨some "u1"⟩ sampleJob = true ∧
    jobFilesPolicy Op.delete ⟨some "u1"⟩ sampleJobFile = true ∧
    fileCommentsPolicy Op.delete ⟨some "u1"⟩ sampleComment = true ∧
    projectTemplatesPolicy Op.delete ⟨some "carol"⟩ carolTemplate = false :=
  ⟨(delete_requires_ownership_except_templates "u1" sampleJob sampleJobFile
      sampleComment carolTemplate ⟨some "carol"⟩).1.mpr rfl,
   (delete_requires_ownership_except_templates "u1" sampleJob sampleJobFile
      sampleComment carolTemplate ⟨some "carol"⟩).2.1.mpr rfl,
   (delete_requires_ownership_except_templates "u1" sampleJob sampleJobFile
      sampleComment carolTemplate ⟨some "carol"⟩).2.2.1.mpr rfl,
   (delete_requires_ownership_except_templates "u1" sampleJob sampleJobFile
      sampleComment carolTemplate ⟨some "carol"⟩).2.2.2⟩

/-- C1 counterexample: a Template DELETE by the very identity recorded in
created_by is denied, so delete does not succeed iff caller equals owner. -/
theorem template_delete_denied_for_creator :
    carolTemplate.created_by = some "carol" ∧
    projectTemplatesPolicy Op.delete ⟨some "carol"⟩ carolTemplate = false :=
  ⟨rfl, rfl⟩

/-- Sample public template, visible to everyone. -/
def publicTemplate : ProjectTemplateRow :=
  { id := "t2", name := "Business Card Design", description := none,
    thumbnail := none, template_data := none, category := "business",
    is_public := true, created_by := some "carol", created_at := 0,
    updated_at := 0 }

/-- Sample private template created by user erin, for the C6 witness. -/
def erinTemplate : ProjectTemplateRow :=
  { id := "t3", name := "Window Graphics", description := none,
    thumbnail := none, template_data := none, category := "storefront",
    is_public := false, created_by := some "erin", created_at := 0,
    updated_at := 0 }

/-- C6: a public template passes the SELECT policy for every authenticated
caller, and a non-public template passes it only when the caller identity
is present and equals created_by. -/
theorem template_select_visibility (t : ProjectTemplateRow) (u : String)
    (c : AuthContext) :
    (t.is_public = true → projectTemplatesPolicy Op.select ⟨some u⟩ t = true) ∧
    (t.is_public = false → projectTemplatesPolicy Op.select c t = true →
      c.uid = t.created_by ∧ c.uid.isSome = true) := by
  constructor
  · intro h
    simp [projectTemplatesPolicy, h]
  · intro h hsel
    simp only [projectTemplatesPolicy, h, Bool.false_or] at hsel
    cases hu : c.uid with
    | none =>
      rw [hu] at hsel
      cases hb : t.created_by with
      | none => simp [sqlEq] at hsel
      | some b => simp [sqlEq] at hsel
    | some a =>
      cases hb : t.created_by with
      | none => rw [hu, hb] at hsel; simp [sqlEq] at hsel
      | some b =>
        rw [hu, hb] at hsel
        simp only [sqlEq, beq_iff_eq] at hsel
        subst hsel
        exact ⟨rfl, rfl⟩

/-- C6 witness: both directions evaluated concretely; the public template
is visible to an unrelated authenticated caller, and a successful select on
the private template pins the caller to its creator. -/
theorem template_select_visibility_witness :
    projectTemplatesPolicy Op.select ⟨some "dave"⟩ publicTemplate = true ∧
    ((⟨some "erin"⟩ : AuthContext).uid = erinTemplate.created_by ∧
      (⟨some "erin"⟩ : AuthContext).uid.isSome = true) :=
  ⟨(template_select_visibility publicTemplate "dave" ⟨some "dave"⟩).1 rfl,
   (template_select_visibility erinTemplate "dave" ⟨some "erin"⟩).2 rfl (by decide)⟩

/-- C9: FileVersion rows are append-only at the storage layer: UPDATE and
DELETE are denied for every caller, while SELECT and INSERT are granted to
every authenticated caller. -/
theorem file_versions_append_only (c : AuthContext) (u : String)
    (row : FileVersionRow) :
    fileVersionsPolicy Op.update c row = false ∧
    fileVersionsPolicy Op.delete c row = false ∧
    fileVersionsPolicy Op.select ⟨some u⟩ row = true ∧
    fileVersionsPolicy Op.insert ⟨some u⟩ row = true := by
  refine ⟨rfl, rfl, ?_, ?_⟩ <;> simp [fileVersionsPolicy, authRole]

/-- The empty database state. -/
def emptyDB : DB :=
  { authUsers := [], profiles := [], jobs := [], job_files := [],
    file_comments := [], file_versions := [], project_templates := [],
    objects := [] }

/-- C2: a successful first authentication of a fresh identity leaves exactly
one profile row for that id, whose role is the allowlist formula evaluated
at creation; and the only automatic post-creation write to profiles, the
BEFORE UPDATE timestamp trigger, never changes the role column. -/
theorem first_auth_single_profile_fixed_role
    (db : DB) (u : AuthUser) (now : Nat) (db' : DB) (p : ProfileRow) (t : Nat)
    (hs : signUp db u now = some db')
    (hfresh : db.profiles.all (fun q => q.id != u.id) = true) :
    (db'.profiles.filter (fun q => q.id == u.id)).length = 1 ∧
    db'.profiles.all (fun q =>
      q.id != u.id ||
        q.role == (if u.email ∈ adminEmails then "admin" else "user")) = true ∧
    (update_updated_at_column p t).role = p.role := by
  simp only [signUp] at hs
  split at hs
  · exact absurd hs (by simp)
  · rw [Option.some.injEq] at hs
    subst hs
    refine ⟨?_, ?_, rfl⟩
    · have h1 : db.profiles.filter (fun q => q.id == u.id) = [] := by
        rw [List.filter_eq_nil_iff]
        intro q hq
        have hne := List.all_eq_true.mp hfresh q hq
        simp only [bne_iff_ne, ne_eq] at hne
        simp [hne]
      rw [List.filter_append, h1]
      simp [handle_new_user]
    · refine List.all_eq_true.mpr ?_
      intro q hq
      rcases List.mem_append.mp hq with hq | hq
      · have hne := List.all_eq_true.mp hfresh q hq
        simp [hne]
      · rw [List.mem_singleton] at hq
        subst hq
        simp [handle_new_user]

/-- The allowlisted identity used to exercise the bootstrap. -/
def emanUser : AuthUser :=
  { id := "id1", email := "eman.mukhtar@fastsigns.com", raw_full_name := none }

/-- The database state right after the first authentication of the
allowlisted identity. -/
def bootDB : DB :=
  { emptyDB with
    authUsers := [emanUser]
    profiles := [handle_new_user emanUser 5] }

/-- C2 witness: the bootstrap theorem evaluated on the empty database and
the allowlisted identity. -/
theorem first_auth_single_profile_fixed_role_witness :
    (bootDB.profiles.filter (fun q => q.id == emanUser.id)).length = 1 ∧
    bootDB.profiles.all (fun q =>
      q.id != emanUser.id ||
        q.role == (if emanUser.email ∈ adminEmails then "admin" else "user")) = true ∧
    (update_updated_at_column (handle_new_user emanUser 5) 9).role =
      (handle_new_user emanUser 5).role :=
  first_auth_single_profile_fixed_role emptyDB emanUser 5 bootDB
    (handle_new_user emanUser 5) 9 (by decide) (by decide)

/-- An admin profile, as created for an allowlisted email. -/
def adminAlice : ProfileRow :=
  { id := "alice", email := "eman.mukhtar@fastsigns.com", full_name := "Alice",
    role := "admin", created_at := 0, updated_at := 0 }

/-- An ordinary user profile. -/
def plainBob : ProfileRow :=
  { id := "bob", email := "bob@fastsigns.com", full_name := "Bob",
    role := "user", created_at := 0, updated_at := 0 }

/-- C3 (bug evidence): the profiles UPDATE policy is solely
auth.uid() = id, so a caller whose own profile role is admin is denied an
UPDATE of a different profile row, while the row owner is permitted; the
AdminPanel role editor therefore cannot take effect at the storage layer. -/
theorem admin_cannot_update_other_profile_role :
    adminAlice.role = "admin" ∧
    adminAlice.id ≠ plainBob.id ∧
    profilesPolicy Op.update ⟨some adminAlice.id⟩ plainBob = false ∧
    profilesPolicy Op.update ⟨some plainBob.id⟩ plainBob = true := by decide

/-- A job row whose created_by names an identity other than the inserting
caller. -/
def spoofedJob : JobRow :=
  { id := "j9", name := "spoof", description := none,
    created_by := some "victim", thumbnail := none, priority := "medium",
    status := "pending", client_name := none, created_at := 0, updated_at := 0 }

/-- C4 counterexample: the jobs INSERT policy checks only that the caller
is authenticated, so an insert whose created_by names a different identity
passes the storage layer and yields a row owned by someone else. -/
theorem job_insert_not_forced_to_caller :
    spoofedJob.created_by = some "victim" ∧
    some "mallory" ≠ spoofedJob.created_by ∧
    jobsPolicy Op.insert ⟨some "mallory"⟩ spoofedJob = true := by decide

/-- C4 amended: any authenticated caller may INSERT any job row regardless
of its created_by value; it is only the client createJob code that sets
created_by to the session uid. -/
theorem job_insert_authenticated_client_sets_owner
    (u : String) (row : JobRow) (rowId : String) (uid : Option String)
    (name : String) (description client_name priority : Option String)
    (now : Nat) :
    jobsPolicy Op.insert ⟨some u⟩ row = true ∧
    (createJob rowId uid name description client_name priority now).created_by = uid :=
  ⟨by simp [jobsPolicy, authRole], rfl⟩

/-- C5 amended: when the owner deletes a job, every job_files row carrying
that job_id is cascade-deleted (so no later row operation can find one),
but the storage objects are untouched and blob reachability through get is
unchanged for every caller. -/
theorem job_delete_cascades_rows_not_blobs
    (db : DB) (u jobId : String) (j : JobRow) (c2 : AuthContext)
    (name : List String)
    (hmem : j ∈ db.jobs) (hid : j.id = jobId) (hown : j.created_by = some u) :
    (deleteJob ⟨some u⟩ db jobId).job_files.all
      (fun f => f.job_id != some jobId) = true ∧
    (deleteJob ⟨some u⟩ db jobId).objects = db.objects ∧
    storageGet c2 (deleteJob ⟨some u⟩ db jobId) name = storageGet c2 db name := by
  refine ⟨?_, rfl, rfl⟩
  refine List.all_eq_true.mpr ?_
  intro f hf
  simp only [deleteJob] at hf
  rcases List.mem_filter.mp hf with ⟨hfin, hp⟩
  rw [Bool.not_eq_true'] at hp
  rw [List.any_eq_false] at hp
  have hj := hp j hmem
  by_contra hcon
  apply hj
  have hfid : f.job_id = some jobId := by
    simpa [bne] using hcon
  simp [hid, hown, hfid, jobsPolicy, sqlEq]

/-- The blob stored for the sample job file. -/
def demoObject : StorageObjectRow :=
  { bucket_id := "job-files", name := ["j1", "100-abc.png"] }

/-- A database with one job, its uploaded file row and the stored blob. -/
def demoDB : DB :=
  { emptyDB with
    jobs := [sampleJob]
    job_files := [sampleJobFile]
    objects := [demoObject] }

/-- C5 witness: the cascade theorem evaluated on the concrete one-job
database, for a caller different from the owner. -/
theorem job_delete_cascades_rows_not_blobs_witness :
    (deleteJob ⟨some "u1"⟩ demoDB "j1").job_files.all
      (fun f => f.job_id != some "j1") = true ∧
    (deleteJob ⟨some "u1"⟩ demoDB "j1").objects = demoDB.objects ∧
    storageGet ⟨some "v2"⟩ (deleteJob ⟨some "u1"⟩ demoDB "j1")
        ["j1", "100-abc.png"] =
      storageGet ⟨some "v2"⟩ demoDB ["j1", "100-abc.png"] :=
  job_delete_cascades_rows_not_blobs demoDB "u1" "j1" sampleJob ⟨some "v2"⟩
    ["j1", "100-abc.png"] (by decide) rfl rfl

/-- C5 counterexample: after the owner deletes job j1 the job and its file
rows are gone, yet the uploaded blob is still present and still readable
via get by a different authenticated caller, so the blobs do not become
unreachable. -/
theorem deleted_job_blob_still_reachable :
    (deleteJob ⟨some "u1"⟩ demoDB "j1").jobs = [] ∧
    (deleteJob ⟨some "u1"⟩ demoDB "j1").job_files = [] ∧
    storageGet ⟨some "v2"⟩ (deleteJob ⟨some "u1"⟩ demoDB "j1")
      ["j1", "100-abc.png"] = true := by decide

/-- C7 (bug evidence): in the interleaving where both collaboration clients
fetch the version list before either inserts, both createNewVersion calls
compute version_number 1 for the same file, so the N created versions do
not carry N distinct version numbers. -/
theorem concurrent_version_numbers_collide :
    ((runCollab "f1" [CollabStep.fetchA, CollabStep.fetchB, CollabStep.insertA,
        CollabStep.insertB] ⟨[], none, none⟩).table.map
          FileVersionRow.version_number = [1, 1]) ∧
    ¬ ((runCollab "f1" [CollabStep.fetchA, CollabStep.fetchB, CollabStep.insertA,
        CollabStep.insertB] ⟨[], none, none⟩).table.map
          FileVersionRow.version_number).Nodup := by decide

/-- Length of the sequentially created version list. -/
theorem seqVersions_length (fileId : String) (uid : Option String) (n : Nat) :
    (seqVersions fileId uid n).length = n := by
  induction n with
  | zero => rfl
  | succ n ih => simp [seqVersions, ih]

/-- The version numbers produced by sequential creation are 1, 2, ..., n. -/
theorem seqVersions_map_version (fileId : String) (uid : Option String) (n : Nat) :
    (seqVersions fileId uid n).map FileVersionRow.version_number =
      (List.range n).map (fun i : Nat => ((i : Int) + 1)) := by
  induction n with
  | zero => rfl
  | succ n ih =>
    rw [seqVersions, List.map_append, ih, List.range_succ, List.map_append]
    simp [createNewVersion, seqVersions_length]

/-- C8: createNewVersion numbers a new row as the current count of fetched
versions plus one, and under sequential creation the per-file version
numbers are strictly increasing. -/
theorem version_number_count_plus_one_monotone
    (rowId fileId : String) (versions : List FileVersionRow)
    (uid : Option String) (size : Int) (changelog : Option String)
    (ext : String) (now : Nat) (n : Nat) :
    (createNewVersion rowId fileId versions uid size changelog ext now).version_number =
      (versions.length : Int) + 1 ∧
    ((seqVersions fileId uid n).map FileVersionRow.version_number).Pairwise (· < ·) := by
  constructor
  · simp [createNewVersion]
  · rw [seqVersions_map_version]
    refine List.Pairwise.map _ ?_ (List.pairwise_lt_range n)
    intro a b hab
    omega

/-- C10: a file uploaded through handleFileUpload lives under a path whose
leading segment is the job id, and the storage-removal step of deleteFile
on such a row is denied for every caller whose identity differs from the
job id, the uploader included. -/
theorem uploaded_blob_delete_denied_for_other_callers
    (rowId jobId origName fileType : String) (size : Int) (isPres : Bool)
    (uid : Option String) (fileName : String) (now : Nat) (u : String)
    (hne : u ≠ jobId) :
    (foldername (uploadedJobFileRow rowId jobId origName fileType size isPres
        uid fileName now).file_path).head? = some jobId ∧
    deleteFileStorageRemove ⟨some u⟩
      (uploadedJobFileRow rowId jobId origName fileType size isPres uid
        fileName now) = false := by
  refine ⟨rfl, ?_⟩
  simp only [deleteFileStorageRemove, storageObjectsPolicy, uploadedJobFileRow,
    uploadFilePath, foldername]
  simp [sqlEq, hne]

/-- C10 witness: evaluated for the uploader uid u1 deleting the blob of its
own upload into job j1: the path leads with the job id and the storage
DELETE policy denies the uploader. -/
theorem uploaded_blob_delete_denied_witness :
    (foldername (uploadedJobFileRow "f9" "j1" "logo.png" "image/png" 64 false
        (some "u1") "100-abc.png" 0).file_path).head? = some "j1" ∧
    deleteFileStorageRemove ⟨some "u1"⟩
      (uploadedJobFileRow "f9" "j1" "logo.png" "image/png" 64 false
        (some "u1") "100-abc.png" 0) = false :=
  uploaded_blob_delete_denied_for_other_callers "f9" "j1" "logo.png"
    "image/png" 64 false (some "u1") "100-abc.png" 0 "u1" (by decide)
